import Mathlib

/-!
# Contact feature: notification dispatcher and form submitter

Shallow embedding of `src/app/api/contact/route.js` (the `POST` handler with
`sendTelegramMessage` and `sendEmail`) and of the event handlers of
`src/app/components/homepage/contact/contact-form.jsx`.

JavaScript values are embedded as plain data (`JSValue`).  A computation that
may throw is an `Except JSValue α`: `.error e` is `throw e`, and for an
`async` function it is a rejected promise.  The external libraries (`axios`,
`nodemailer`, `request.json`) are oracles carried by a `World`.
-/

namespace Contact

/-- JavaScript values as plain data.  A number is carried by the text that
`Number::toString` gives for it (the only ways the program observes a number
are string conversion and truthiness). -/
inductive JSValue where
  | undefined : JSValue
  | null : JSValue
  | bool (b : Bool) : JSValue
  | num (text : String) : JSValue
  | str (s : String) : JSValue
  | arr (items : List JSValue) : JSValue
  | obj (fields : List (String × JSValue)) : JSValue

/-- The values `null` and `undefined`: property access on them throws. -/
def isNullish : JSValue → Bool
  | .undefined => true
  | .null => true
  | _ => false

/-- JavaScript `ToBoolean`. A number is falsy exactly when it is `0`, `-0`
(both print as `0`) or `NaN`. -/
def truthy : JSValue → Bool
  | .undefined => false
  | .null => false
  | .bool b => b
  | .num t => !(t == "0" || t == "NaN")
  | .str s => !(s == "")
  | .arr _ => true
  | .obj _ => true

/-- A `TypeError` object, as thrown by the language itself. -/
def typeError (msg : String) : JSValue :=
  .obj [("name", .str "TypeError"), ("message", .str msg)]

/-- Own data property lookup in an object literal or a parsed JSON object. -/
def lookupField (key : String) : List (String × JSValue) → JSValue
  | [] => .undefined
  | (k, v) :: rest => if k == key then v else lookupField key rest

/-- Whether an object has an own property named `key`. -/
def hasField (key : String) : List (String × JSValue) → Bool
  | [] => false
  | (k, _) :: rest => k == key || hasField key rest

/-- Property read `v.key` for the keys the program reads (`data`, `ok`,
`message`, `response`, `name`, `email`): it throws a `TypeError` on `null`
and `undefined`, reads the own field of an object, and is `undefined` on
every other value. -/
def getProp (v : JSValue) (key : String) : Except JSValue JSValue :=
  match v with
  | .undefined => .error (typeError "Cannot read properties of undefined")
  | .null => .error (typeError "Cannot read properties of null")
  | .obj fields => .ok (lookupField key fields)
  | _ => .ok .undefined

/-- Optional chaining `v?.key`: `undefined` on a nullish base. -/
def getPropOpt (v : JSValue) (key : String) : JSValue :=
  match v with
  | .obj fields => lookupField key fields
  | _ => .undefined

mutual
/-- JavaScript `ToString`, as applied by a template literal.  An object that
carries an own `toString` field (never callable in plain data) has no usable
conversion and throws a `TypeError`; any other object prints as
`[object Object]`; an array prints as the comma join of its items. -/
def toStringJS : JSValue → Except JSValue String
  | .undefined => .ok "undefined"
  | .null => .ok "null"
  | .bool b => .ok (if b then "true" else "false")
  | .num t => .ok t
  | .str s => .ok s
  | .arr items => joinJS items
  | .obj fields =>
      if hasField "toString" fields then
        .error (typeError "Cannot convert object to primitive value")
      else .ok "[object Object]"
/-- The comma join of `Array.prototype.join`: `null` and `undefined` items
print as the empty string. -/
def joinJS : List JSValue → Except JSValue String
  | [] => .ok ""
  | x :: rest =>
      match (if isNullish x then Except.ok "" else toStringJS x) with
      | .error e => .error e
      | .ok s =>
          match rest with
          | [] => .ok s
          | _ :: _ =>
              match joinJS rest with
              | .error e => .error e
              | .ok t => .ok (s ++ "," ++ t)
end

/-! ## The notification dispatcher (`route.js`) -/

/-- The four secrets of `process.env`; an unset variable is `none`
(`undefined`). -/
structure Env where
  TELEGRAM_BOT_TOKEN : Option String
  TELEGRAM_CHAT_ID : Option String
  EMAIL_ADDRESS : Option String
  GMAIL_PASSKEY : Option String

/-- The test `!v` on an environment value: true when it is unset or empty. -/
def envFalsy : Option String → Bool
  | none => true
  | some s => s == ""

/-- String conversion of an environment value inside a template literal. -/
def envText : Option String → String
  | none => "undefined"
  | some s => s

/-- The JSON body given to `axios.post` by `sendTelegramMessage`. -/
structure ChatBody where
  chat_id : Option String
  text : String
  parse_mode : String

/-- The `mailOptions` object of `sendEmail` (`sender` is its `from` field and
`recipient` its `to` field, both reserved words here). -/
structure MailOptions where
  sender : String
  recipient : Option String
  subject : String
  text : String
  html : String
  replyTo : JSValue

/-- One outbound call made by the handler. -/
inductive Call where
  | telegram (url : String) (body : ChatBody) : Call
  | mail (options : MailOptions) : Call

/-- The environment of one request: the outcome of `request.json()`, the
behaviour of `axios.post` and of `transporter.sendMail`, and which of the two
delivery promises settles first (it decides which rejection `Promise.all`
reports when both reject). -/
structure World where
  requestJson : Except JSValue JSValue
  axiosPost : String → ChatBody → Except JSValue JSValue
  sendMail : MailOptions → Except JSValue Unit
  emailSettlesFirst : Bool

/-- The outcome of running a function: the outbound calls it made, in order,
and its result (`.error e` when it throws or rejects with `e`). -/
structure Run (α : Type) where
  calls : List Call
  result : Except JSValue α

/-- What `NextResponse.json(body, status)` carries. -/
structure Response where
  success : Bool
  message : String
  status : Nat
deriving DecidableEq, Repr

/-- The argument of `console.error` in the catch block of
`sendTelegramMessage`: `error.response?.data || error.message`. -/
def telegramLogArg (error : JSValue) : Except JSValue JSValue :=
  match getProp error "response" with
  | .error e => .error e
  | .ok response =>
      let data := getPropOpt response "data"
      if truthy data then .ok data else getProp error "message"

/-- The function `sendTelegramMessage(token, chat_id, message)`. -/
def sendTelegramMessage (w : World) (token chat_id : Option String)
    (message : String) : Run JSValue :=
  let url := "https://api.telegram.org/bot" ++ envText token ++ "/sendMessage"
  let body : ChatBody :=
    { chat_id := chat_id, text := message, parse_mode := "Markdown" }
  let attempt : Except JSValue JSValue :=
    match w.axiosPost url body with
    | .error e => .error e
    | .ok res =>
        match getProp res "data" with
        | .error e => .error e
        | .ok data => getProp data "ok"
  { calls := [Call.telegram url body]
    result :=
      match attempt with
      | .ok ok => .ok ok
      | .error error =>
          match telegramLogArg error with
          | .error e => .error e
          | .ok _ => .ok (.bool false) }

/-- The template `generateEmailTemplate(name, email, userMessage)`. -/
def generateEmailTemplate (name email userMessage : JSValue) :
    Except JSValue String :=
  match toStringJS name with
  | .error e => .error e
  | .ok n =>
  match toStringJS email with
  | .error e => .error e
  | .ok m =>
  match toStringJS userMessage with
  | .error e => .error e
  | .ok u =>
    .ok ("\n  <div style=\"font-family: Arial, sans-serif; padding: 20px; background-color: #f4f4f4;\">\n"
      ++ "    <div style=\"max-width: 600px; margin: auto; background: #fff; padding: 20px; border-radius: 8px;\">\n"
      ++ "      <h2 style=\"color: #007BFF;\">New Message Received</h2>\n"
      ++ "      <p><strong>Name:</strong> " ++ n ++ "</p>\n"
      ++ "      <p><strong>Email:</strong> " ++ m ++ "</p>\n"
      ++ "      <p><strong>Message:</strong></p>\n"
      ++ "      <blockquote style=\"border-left: 4px solid #007BFF; padding-left: 10px;\">\n"
      ++ "        " ++ u ++ "\n"
      ++ "      </blockquote>\n"
      ++ "      <p style=\"font-size: 12px; color: #888;\">Click reply to respond to this message.</p>\n"
      ++ "    </div>\n"
      ++ "  </div>\n")

/-- The destructuring `const { name, email, message: userMessage } = payload`:
it throws a `TypeError` on `null` and `undefined`. -/
def destructure (payload : JSValue) :
    Except JSValue (JSValue × JSValue × JSValue) :=
  match getProp payload "name" with
  | .error e => .error e
  | .ok name =>
  match getProp payload "email" with
  | .error e => .error e
  | .ok email =>
  match getProp payload "message" with
  | .error e => .error e
  | .ok userMessage => .ok (name, email, userMessage)

/-- The object literal `mailOptions` of `sendEmail`, built before its `try`. -/
def mailOptionsOf (env : Env) (payload : JSValue) (message : String) :
    Except JSValue MailOptions :=
  match destructure payload with
  | .error e => .error e
  | .ok (name, email, userMessage) =>
  match toStringJS name with
  | .error e => .error e
  | .ok n =>
  match generateEmailTemplate name email userMessage with
  | .error e => .error e
  | .ok html =>
    .ok { sender := "\"Portfolio Contact\" <" ++ envText env.EMAIL_ADDRESS ++ ">"
          recipient := env.EMAIL_ADDRESS
          subject := "📩 New Message From " ++ n
          text := message
          html := html
          replyTo := email }

/-- The function `sendEmail(payload, message)`. -/
def sendEmail (env : Env) (w : World) (payload : JSValue) (message : String) :
    Run JSValue :=
  match mailOptionsOf env payload message with
  | .error e => { calls := [], result := .error e }
  | .ok mailOptions =>
    { calls := [Call.mail mailOptions]
      result :=
        match w.sendMail mailOptions with
        | .ok _ => .ok (.bool true)
        | .error error =>
            match getProp error "message" with
            | .error e => .error e
            | .ok _ => .ok (.bool false) }

/-- The template literal `formattedMessage` of `POST`. -/
def formatMessage (name email userMessage : JSValue) : Except JSValue String :=
  match toStringJS name with
  | .error e => .error e
  | .ok n =>
  match toStringJS email with
  | .error e => .error e
  | .ok m =>
  match toStringJS userMessage with
  | .error e => .error e
  | .ok u =>
    .ok ("📬 *New message from " ++ n ++ "*\n\n📧 Email: " ++ m
      ++ "\n📝 Message:\n" ++ u)

/-- The join `await Promise.all([a, b])` of the two delivery promises: it
rejects with the rejection that settles first. -/
def promiseAll (emailSettlesFirst : Bool) (a b : Except JSValue JSValue) :
    Except JSValue (JSValue × JSValue) :=
  match a, b with
  | .ok x, .ok y => .ok (x, y)
  | .error e, .ok _ => .error e
  | .ok _, .error e => .error e
  | .error e, .error f => if emailSettlesFirst then .error f else .error e

/-- Lines 101-127 of `route.js`: the response chosen from the two outcomes. -/
def aggregate (telegramSuccess emailSuccess : JSValue) : Response :=
  if truthy telegramSuccess && truthy emailSuccess then
    { success := true, message := "✅ Message and email sent successfully!"
      status := 200 }
  else if !truthy telegramSuccess && !truthy emailSuccess then
    { success := false, message := "❌ Both Telegram and Email failed."
      status := 500 }
  else if !truthy telegramSuccess then
    { success := false
      message := "⚠️ Email sent, but failed to send Telegram message."
      status := 500 }
  else
    { success := false, message := "⚠️ Telegram sent, but failed to send Email."
      status := 500 }

/-- Whether every one of the four secrets is set and non-empty: the negation
of the guard of `POST` (line 86). -/
def configPresent (env : Env) : Bool :=
  !envFalsy env.TELEGRAM_BOT_TOKEN && !envFalsy env.TELEGRAM_CHAT_ID
    && !envFalsy env.EMAIL_ADDRESS && !envFalsy env.GMAIL_PASSKEY

/-- The response of the missing-configuration guard. -/
def missingEnv : Response :=
  { success := false
    message := "❌ One or more environment variables are missing."
    status := 500 }

/-- The response of the top-level catch block of `POST`. -/
def serverError : Response :=
  { success := false, message := "❌ Server error occurred.", status := 500 }

/-- The top-level catch block of `POST`: it reads `error.message` for the
log, then answers with the generic response. -/
def catchPOST (calls : List Call) (error : JSValue) : Run Response :=
  { calls := calls
    result :=
      match getProp error "message" with
      | .error e => .error e
      | .ok _ => .ok serverError }

/-- The handler `POST(request)`. -/
def POST (env : Env) (w : World) : Run Response :=
  match w.requestJson with
  | .error e => catchPOST [] e
  | .ok payload =>
  match destructure payload with
  | .error e => catchPOST [] e
  | .ok (name, email, userMessage) =>
    let token := env.TELEGRAM_BOT_TOKEN
    let chat_id := env.TELEGRAM_CHAT_ID
    if envFalsy token || envFalsy chat_id || envFalsy env.EMAIL_ADDRESS
        || envFalsy env.GMAIL_PASSKEY then
      { calls := [], result := .ok missingEnv }
    else
      match formatMessage name email userMessage with
      | .error e => catchPOST [] e
      | .ok formattedMessage =>
        let t := sendTelegramMessage w token chat_id formattedMessage
        let m := sendEmail env w payload formattedMessage
        match promiseAll w.emailSettlesFirst t.result m.result with
        | .error e => catchPOST (t.calls ++ m.calls) e
        | .ok (telegramSuccess, emailSuccess) =>
          { calls := t.calls ++ m.calls
            result := .ok (aggregate telegramSuccess emailSuccess) }

/-! ## The form submitter (`contact-form.jsx`) -/

/-- The `error` state of `ContactForm`. -/
structure FormError where
  email : Bool
  required : Bool
deriving DecidableEq, Repr

/-- The `userInput` state of `ContactForm`; the three fields hold the text of
the inputs. -/
structure UserInput where
  name : String
  email : String
  message : String
deriving DecidableEq, Repr

/-- The three state cells of `ContactForm` as seen by one render. -/
structure FormState where
  error : FormError
  isLoading : Bool
  userInput : UserInput
deriving DecidableEq, Repr

/-- The initial state given to the three `useState` calls. -/
def initialState : FormState :=
  { error := { email := false, required := false }
    isLoading := false
    userInput := { name := "", email := "", message := "" } }

/-- What an event handler does, in order.  A handler reads the state of the
render that created it; each `set...` call queues a replacement value. -/
inductive Effect where
  | preventDefault : Effect
  | setError (value : FormError) : Effect
  | setIsLoading (value : Bool) : Effect
  | setUserInput (value : UserInput) : Effect
  | httpPost (url : String) (body : UserInput) : Effect
  | toastSuccess (text : String) : Effect
  | toastError (text : JSValue) : Effect

/-- Truthiness of a string: the empty string is falsy. -/
def strTruthy (s : String) : Bool := !(s == "")

/-- The state after one queued effect: a `set...` call replaces its cell. -/
def applyEffect (s : FormState) : Effect → FormState
  | .setError value => { s with error := value }
  | .setIsLoading value => { s with isLoading := value }
  | .setUserInput value => { s with userInput := value }
  | _ => s

/-- The state once every queued update of a handler has been applied. -/
def applyEffects (s : FormState) (effects : List Effect) : FormState :=
  effects.foldl applyEffect s

/-- The HTTP requests among the effects of a handler. -/
def requests : List Effect → List (String × UserInput)
  | [] => []
  | .httpPost url body :: rest => (url, body) :: requests rest
  | _ :: rest => requests rest

/-- The function `checkRequired` of the render with state `s`. -/
def checkRequired (s : FormState) : List Effect :=
  if strTruthy s.userInput.email && strTruthy s.userInput.message
      && strTruthy s.userInput.name then
    [Effect.setError { s.error with required := false }]
  else []

/-- The `onBlur` handler of the email input.  The helper `isValidEmail` of
`@/utils/check-email` is a parameter. -/
def emailOnBlur (isValidEmail : String → Bool) (s : FormState) : List Effect :=
  checkRequired s
    ++ [Effect.setError { s.error with email := !isValidEmail s.userInput.email }]

/-- The argument of `toast.error` in the catch block of `handleSendMail`:
`error?.response?.data?.message || "Something went wrong"`. -/
def toastErrorArg (error : JSValue) : JSValue :=
  let m := getPropOpt (getPropOpt (getPropOpt error "response") "data") "message"
  if truthy m then m else .str "Something went wrong"

/-- The function `handleSendMail` of the render with state `s`; `server` is the
outcome of `axios.post("/api/contact", userInput)`. -/
def handleSendMail (server : UserInput → Except JSValue JSValue)
    (s : FormState) : List Effect :=
  Effect.preventDefault ::
  (if !strTruthy s.userInput.email || !strTruthy s.userInput.message
      || !strTruthy s.userInput.name then
    [Effect.setError { s.error with required := true }]
  else if s.error.email then
    []
  else
    Effect.setError { s.error with required := false }
      :: Effect.setIsLoading true
      :: Effect.httpPost "/api/contact" s.userInput
      :: ((match server s.userInput with
          | .ok _ =>
              [Effect.toastSuccess "Message sent successfully!",
               Effect.setUserInput { name := "", email := "", message := "" }]
          | .error error => [Effect.toastError (toastErrorArg error)])
        ++ [Effect.setIsLoading false]))

/-- Line 100 of the component: whether `All fields are required!` is rendered. -/
def showsRequiredError (s : FormState) : Bool := s.error.required

/-! ## Concrete inputs used by the witnesses and counterexamples -/

/-- A configuration with the four secrets set. -/
def fullEnv : Env :=
  { TELEGRAM_BOT_TOKEN := some "123:abc"
    TELEGRAM_CHAT_ID := some "42"
    EMAIL_ADDRESS := some "owner@example.com"
    GMAIL_PASSKEY := some "passkey" }

/-- A configuration with the chat destination unset. -/
def envWithoutChatId : Env :=
  { TELEGRAM_BOT_TOKEN := some "123:abc"
    TELEGRAM_CHAT_ID := none
    EMAIL_ADDRESS := some "owner@example.com"
    GMAIL_PASSKEY := some "passkey" }

/-- The payload of the end-to-end example of the specification. -/
def alicePayload : JSValue :=
  .obj [("name", .str "Alice"), ("email", .str "alice@example.com"),
        ("message", .str "Hello")]

/-- An axios response whose body acknowledges: `res.data.ok` is `true`. -/
def ackResponse : JSValue :=
  .obj [("status", .num "200"), ("data", .obj [("ok", .bool true)])]

/-- An axios response whose body is `\x7bok: false\x7d`. -/
def nackResponse : JSValue :=
  .obj [("status", .num "200"), ("data", .obj [("ok", .bool false)])]

/-- An axios response whose body is an empty object: `ok` is absent. -/
def emptyDataResponse : JSValue :=
  .obj [("status", .num "200"), ("data", .obj [])]

/-- An `Error` object with a message. -/
def someError : JSValue :=
  .obj [("name", .str "Error"), ("message", .str "connection refused")]

/-- Alice's request with both transports succeeding. -/
def happyWorld : World :=
  { requestJson := .ok alicePayload
    axiosPost := fun _ _ => .ok ackResponse
    sendMail := fun _ => .ok ()
    emailSettlesFirst := false }

/-- Alice's request with the chat API refusing and the mail sent. -/
def chatRefusedWorld : World :=
  { happyWorld with axiosPost := fun _ _ => .ok nackResponse }

/-- Alice's request with the chat API acknowledging and `sendMail` throwing
an `Error`. -/
def mailFailsWorld : World :=
  { happyWorld with sendMail := fun _ => .error someError }

/-- A request whose body is the JSON text `null`. -/
def nullBodyWorld : World :=
  { happyWorld with requestJson := .ok .null }

/-- A request whose body cannot be parsed: `request.json()` throws an error
object. -/
def badBodyWorld : World :=
  { happyWorld with
    requestJson := .error (.obj [("name", .str "SyntaxError"),
      ("message", .str "Unexpected end of JSON input")]) }

/-- A world whose chat API answers with an empty body. -/
def emptyDataWorld : World :=
  { happyWorld with axiosPost := fun _ _ => .ok emptyDataResponse }

/-- A world whose `axios.post` rejects with the value `undefined`. -/
def chatThrowsUndefinedWorld : World :=
  { happyWorld with axiosPost := fun _ _ => .error .undefined }

/-- A world whose `axios.post` throws an `Error`. -/
def chatFailsWorld : World :=
  { happyWorld with axiosPost := fun _ _ => .error someError }

/-! ## Properties of the notification dispatcher -/

/-- The missing-configuration guard of `POST` is the negation of
`configPresent`. -/
theorem guard_eq_not_configPresent (env : Env) :
    (envFalsy env.TELEGRAM_BOT_TOKEN || envFalsy env.TELEGRAM_CHAT_ID
      || envFalsy env.EMAIL_ADDRESS || envFalsy env.GMAIL_PASSKEY)
      = !configPresent env := by
  simp [configPresent]

/-- The response of `POST` once the request is parsed and destructured, the
configuration is present and the notification body is formatted. -/
theorem POST_dispatch (env : Env) (w : World)
    (payload name email userMessage : JSValue) (fm : String)
    (hc : configPresent env = true) (hp : w.requestJson = .ok payload)
    (hd : destructure payload = .ok (name, email, userMessage))
    (hf : formatMessage name email userMessage = .ok fm) :
    POST env w =
      match promiseAll w.emailSettlesFirst
          (sendTelegramMessage w env.TELEGRAM_BOT_TOKEN env.TELEGRAM_CHAT_ID fm).result
          (sendEmail env w payload fm).result with
      | .error e =>
          catchPOST
            ((sendTelegramMessage w env.TELEGRAM_BOT_TOKEN env.TELEGRAM_CHAT_ID fm).calls
              ++ (sendEmail env w payload fm).calls) e
      | .ok (telegramSuccess, emailSuccess) =>
          { calls :=
              (sendTelegramMessage w env.TELEGRAM_BOT_TOKEN env.TELEGRAM_CHAT_ID fm).calls
                ++ (sendEmail env w payload fm).calls
            result := .ok (aggregate telegramSuccess emailSuccess) } := by
  have hg := guard_eq_not_configPresent env
  rw [hc] at hg
  simp only [POST, hp, hd, hf, hg]
  simp

/-- C1: with configuration present and a parsed payload, when the two
delivery attempts return the booleans `a` and `b`, `POST` answers with
`success = true` and status 200 exactly when both are `true`, and with
`success = false` and status 500 otherwise; no other pair is produced. -/
theorem POST_aggregates_booleans (env : Env) (w : World)
    (payload name email userMessage : JSValue) (fm : String) (a b : Bool)
    (hc : configPresent env = true) (hp : w.requestJson = .ok payload)
    (hd : destructure payload = .ok (name, email, userMessage))
    (hf : formatMessage name email userMessage = .ok fm)
    (ht : (sendTelegramMessage w env.TELEGRAM_BOT_TOKEN env.TELEGRAM_CHAT_ID fm).result
      = .ok (.bool a))
    (he : (sendEmail env w payload fm).result = .ok (.bool b)) :
    ∃ r : Response, (POST env w).result = .ok r
      ∧ r.success = (a && b)
      ∧ r.status = (if a && b then 200 else 500)
      ∧ ((r.success = true ∧ r.status = 200) ∨ (r.success = false ∧ r.status = 500)) := by
  rw [POST_dispatch env w payload name email userMessage fm hc hp hd hf, ht, he]
  refine ⟨aggregate (.bool a) (.bool b), rfl, ?_⟩
  cases a <;> cases b <;> simp [aggregate, truthy]

/-- Witness of C1 on Alice's request with the chat API refusing
(`a = false`) and the mail sent (`b = true`). -/
theorem POST_aggregates_booleans_witness :
    ∃ r : Response, (POST fullEnv chatRefusedWorld).result = .ok r
      ∧ r.success = (false && true)
      ∧ r.status = (if (false && true) = true then 200 else 500)
      ∧ ((r.success = true ∧ r.status = 200) ∨ (r.success = false ∧ r.status = 500)) :=
  POST_aggregates_booleans fullEnv chatRefusedWorld alicePayload
    (.str "Alice") (.str "alice@example.com") (.str "Hello")
    "📬 *New message from Alice*\n\n📧 Email: alice@example.com\n📝 Message:\nHello"
    false true rfl rfl rfl rfl rfl rfl

/-- A value thrown by a property read is a `TypeError` object. -/
theorem getProp_error_not_nullish (v : JSValue) (key : String) (e : JSValue)
    (h : getProp v key = .error e) : isNullish e = false := by
  cases v <;> simp [getProp, typeError] at h <;> subst h <;> rfl

/-- A property read succeeds on every value but `null` and `undefined`. -/
theorem getProp_ok_of_not_nullish (v : JSValue) (key : String)
    (h : isNullish v = false) : ∃ x, getProp v key = .ok x := by
  cases v <;> simp [getProp, isNullish] at h ⊢

/-- The destructuring of the payload succeeds on every value but `null` and
`undefined`. -/
theorem destructure_ok_of_not_nullish (payload : JSValue)
    (h : isNullish payload = false) :
    ∃ name email userMessage, destructure payload = .ok (name, email, userMessage) := by
  cases payload <;> simp [destructure, getProp, isNullish] at h ⊢

/-- A value thrown by the destructuring is a `TypeError` object. -/
theorem destructure_error_not_nullish (payload e : JSValue)
    (h : destructure payload = .error e) : isNullish e = false := by
  cases payload <;> simp [destructure, getProp, typeError] at h <;> subst h <;> rfl

/-- C2, as stated, fails: the body `null` parses, the destructuring of it
throws before the configuration is examined, and `POST` answers with the
generic message, not with the message about missing configuration. -/
theorem POST_null_body_missing_config :
    nullBodyWorld.requestJson = .ok .null
      ∧ envFalsy envWithoutChatId.TELEGRAM_CHAT_ID = true
      ∧ (POST envWithoutChatId nullBodyWorld).result
          = .ok { success := false, message := "❌ Server error occurred."
                  status := 500 }
      ∧ (POST envWithoutChatId nullBodyWorld).result ≠ .ok missingEnv := by
  refine ⟨rfl, rfl, rfl, ?_⟩
  intro h
  have h2 : (POST envWithoutChatId nullBodyWorld).result = .ok serverError := rfl
  rw [h2] at h
  simp [serverError, missingEnv] at h

/-- C2 amended: when the body parses to a value other than `null` and at
least one of the four secrets is empty or absent, `POST` makes no outbound
call and answers `success = false`, status 500, with the message about
missing configuration. -/
theorem POST_missing_config (env : Env) (w : World) (payload : JSValue)
    (hp : w.requestJson = .ok payload) (hn : isNullish payload = false)
    (hm : envFalsy env.TELEGRAM_BOT_TOKEN = true ∨ envFalsy env.TELEGRAM_CHAT_ID = true
      ∨ envFalsy env.EMAIL_ADDRESS = true ∨ envFalsy env.GMAIL_PASSKEY = true) :
    (POST env w).calls = []
      ∧ (POST env w).result
          = .ok { success := false
                  message := "❌ One or more environment variables are missing."
                  status := 500 } := by
  obtain ⟨name, email, userMessage, hd⟩ := destructure_ok_of_not_nullish payload hn
  have hg : (envFalsy env.TELEGRAM_BOT_TOKEN || envFalsy env.TELEGRAM_CHAT_ID
      || envFalsy env.EMAIL_ADDRESS || envFalsy env.GMAIL_PASSKEY) = true := by
    rcases hm with h | h | h | h <;> simp [h]
  simp only [POST, hp, hd, hg]
  simp [missingEnv]

/-- Witness of the amended C2 on Alice's request with the chat destination
unset. -/
theorem POST_missing_config_witness :
    (POST envWithoutChatId happyWorld).calls = []
      ∧ (POST envWithoutChatId happyWorld).result
          = .ok { success := false
                  message := "❌ One or more environment variables are missing."
                  status := 500 } :=
  POST_missing_config envWithoutChatId happyWorld alicePayload rfl rfl
    (Or.inr (Or.inl rfl))

mutual
/-- A value thrown by the string conversion is a `TypeError` object. -/
theorem toStringJS_error_not_nullish :
    ∀ (v e : JSValue), toStringJS v = .error e → isNullish e = false
  | .undefined, e, h => by simp [toStringJS] at h
  | .null, e, h => by simp [toStringJS] at h
  | .bool _, e, h => by simp [toStringJS] at h
  | .num _, e, h => by simp [toStringJS] at h
  | .str _, e, h => by simp [toStringJS] at h
  | .arr items, e, h => joinJS_error_not_nullish items e (by simpa [toStringJS] using h)
  | .obj fields, e, h => by
      simp only [toStringJS] at h
      split_ifs at h
      · simp [typeError] at h
        subst h
        rfl
/-- A value thrown by the comma join is a `TypeError` object. -/
theorem joinJS_error_not_nullish :
    ∀ (items : List JSValue) (e : JSValue), joinJS items = .error e → isNullish e = false
  | [], e, h => by simp [joinJS] at h
  | x :: rest, e, h => by
      simp only [joinJS] at h
      split at h
      · rename_i e1 h1
        simp at h
        subst h
        split_ifs at h1
        exact toStringJS_error_not_nullish x _ h1
      · split at h
        · simp at h
        · split at h
          · rename_i e2 h2
            simp at h
            subst h
            exact joinJS_error_not_nullish _ _ h2
          · simp at h
end

/-- A value thrown while formatting the notification body is a `TypeError`. -/
theorem formatMessage_error_not_nullish (name email userMessage e : JSValue)
    (h : formatMessage name email userMessage = .error e) : isNullish e = false := by
  unfold formatMessage at h
  split at h
  · rename_i e1 h1
    simp at h
    subst h
    exact toStringJS_error_not_nullish _ _ h1
  · split at h
    · rename_i e1 h1
      simp at h
      subst h
      exact toStringJS_error_not_nullish _ _ h1
    · split at h
      · rename_i e1 h1
        simp at h
        subst h
        exact toStringJS_error_not_nullish _ _ h1
      · simp at h

/-- A value thrown while rendering the HTML template is a `TypeError`. -/
theorem generateEmailTemplate_error_not_nullish (name email userMessage e : JSValue)
    (h : generateEmailTemplate name email userMessage = .error e) :
    isNullish e = false := by
  unfold generateEmailTemplate at h
  split at h
  · rename_i e1 h1
    simp at h
    subst h
    exact toStringJS_error_not_nullish _ _ h1
  · split at h
    · rename_i e1 h1
      simp at h
      subst h
      exact toStringJS_error_not_nullish _ _ h1
    · split at h
      · rename_i e1 h1
        simp at h
        subst h
        exact toStringJS_error_not_nullish _ _ h1
      · cases h

/-- A value thrown while building `mailOptions` is a `TypeError`. -/
theorem mailOptionsOf_error_not_nullish (env : Env) (payload : JSValue)
    (message : String) (e : JSValue)
    (h : mailOptionsOf env payload message = .error e) : isNullish e = false := by
  unfold mailOptionsOf at h
  split at h
  · rename_i e1 h1
    simp at h
    subst h
    exact destructure_error_not_nullish _ _ h1
  · split at h
    · rename_i e1 h1
      simp at h
      subst h
      exact toStringJS_error_not_nullish _ _ h1
    · split at h
      · rename_i e1 h1
        simp at h
        subst h
        exact generateEmailTemplate_error_not_nullish _ _ _ _ h1
      · simp at h

/-- The log argument of the chat catch block is computed for every caught
value but `null` and `undefined`. -/
theorem telegramLogArg_ok_of_not_nullish (error : JSValue)
    (h : isNullish error = false) : ∃ x, telegramLogArg error = .ok x := by
  cases error <;> simp [telegramLogArg, getProp, isNullish] at h ⊢
  all_goals split_ifs <;> simp

/-- A value thrown by the log argument of the chat catch block is a
`TypeError`. -/
theorem telegramLogArg_error_not_nullish (error e : JSValue)
    (h : telegramLogArg error = .error e) : isNullish e = false := by
  unfold telegramLogArg at h
  split at h
  · rename_i e1 h1
    simp at h
    subst h
    exact getProp_error_not_nullish _ _ _ h1
  · simp only at h
    split_ifs at h
    exact getProp_error_not_nullish _ _ _ h

/-- When `sendTelegramMessage` rejects, it rejects with a `TypeError`. -/
theorem sendTelegramMessage_error_not_nullish (w : World)
    (token chat_id : Option String) (message : String) (e : JSValue)
    (h : (sendTelegramMessage w token chat_id message).result = .error e) :
    isNullish e = false := by
  simp only [sendTelegramMessage] at h
  split at h
  · simp at h
  · split at h
    · rename_i e1 h1
      simp at h
      subst h
      exact telegramLogArg_error_not_nullish _ _ h1
    · simp at h

/-- When `sendEmail` rejects, it rejects with a `TypeError`. -/
theorem sendEmail_error_not_nullish (env : Env) (w : World) (payload : JSValue)
    (message : String) (e : JSValue)
    (h : (sendEmail env w payload message).result = .error e) :
    isNullish e = false := by
  unfold sendEmail at h
  split at h
  · rename_i e1 h1
    simp at h
    subst h
    exact mailOptionsOf_error_not_nullish _ _ _ _ h1
  · simp only at h
    split at h
    · simp at h
    · split at h
      · rename_i e1 h1
        simp at h
        subst h
        exact getProp_error_not_nullish _ _ _ h1
      · simp at h

/-- A rejection of the joined promise is the rejection of one of the two. -/
theorem promiseAll_error (first : Bool) (a b : Except JSValue JSValue) (e : JSValue)
    (h : promiseAll first a b = .error e) : a = .error e ∨ b = .error e := by
  unfold promiseAll at h
  split at h
  · simp at h
  · simp at h; subst h; exact Or.inl rfl
  · simp at h; subst h; exact Or.inr rfl
  · split_ifs at h <;> simp at h <;> subst h
    · exact Or.inr rfl
    · exact Or.inl rfl

/-- The top-level catch block answers with the generic response for every
caught value but `null` and `undefined`. -/
theorem catchPOST_ok (calls : List Call) (error : JSValue)
    (h : isNullish error = false) :
    (catchPOST calls error).result = .ok serverError := by
  cases error <;> simp [catchPOST, getProp, isNullish] at h ⊢

/-- The status of an aggregated response is 200 or 500. -/
theorem aggregate_status (t m : JSValue) :
    (aggregate t m).status = 200 ∨ (aggregate t m).status = 500 := by
  unfold aggregate
  split_ifs <;> simp

/-- C3: for every configuration, every behaviour of the two transports
(whatever value `axios.post` or `transporter.sendMail` throws, `null` and
`undefined` included) and every outcome of `request.json()` (a parsed body, or
a rejection with an error value, which is never `null` or `undefined` for a
Fetch request), `POST` does not raise: it returns a response with status 200
or 500; when the body cannot be parsed the response is `success = false`,
status 500 with the generic message.  Thrown values are plain data, as
everywhere in this development. -/
theorem POST_never_raises (env : Env) (w : World)
    (h : ∀ e, w.requestJson = .error e → isNullish e = false) :
    ∃ r : Response, (POST env w).result = .ok r
      ∧ (r.status = 200 ∨ r.status = 500)
      ∧ (∀ e, w.requestJson = .error e →
          r = { success := false, message := "❌ Server error occurred."
                status := 500 }) := by
  have hs : serverError.status = 200 ∨ serverError.status = 500 := Or.inr rfl
  cases hp : w.requestJson with
  | error e =>
      refine ⟨serverError, ?_, hs, fun _ _ => rfl⟩
      simp only [POST, hp]
      exact catchPOST_ok [] e (h e hp)
  | ok payload =>
      cases hd : destructure payload with
      | error e =>
          refine ⟨serverError, ?_, hs, fun e1 h1 => by simp at h1⟩
          simp only [POST, hp, hd]
          exact catchPOST_ok [] e (destructure_error_not_nullish _ _ hd)
      | ok fields =>
          obtain ⟨name, email, userMessage⟩ := fields
          by_cases hc : configPresent env = true
          · cases hf : formatMessage name email userMessage with
            | error e =>
                refine ⟨serverError, ?_, hs, fun e1 h1 => by simp at h1⟩
                have hg := guard_eq_not_configPresent env
                rw [hc] at hg
                simp only [POST, hp, hd, hg, hf]
                exact catchPOST_ok [] e (formatMessage_error_not_nullish _ _ _ _ hf)
            | ok fm =>
                rw [POST_dispatch env w payload name email userMessage fm hc hp hd hf]
                cases hj : promiseAll w.emailSettlesFirst
                    (sendTelegramMessage w env.TELEGRAM_BOT_TOKEN
                      env.TELEGRAM_CHAT_ID fm).result
                    (sendEmail env w payload fm).result with
                | error e =>
                    refine ⟨serverError, ?_, hs, fun e1 h1 => by simp at h1⟩
                    refine catchPOST_ok _ e ?_
                    rcases promiseAll_error _ _ _ _ hj with h1 | h1
                    · exact sendTelegramMessage_error_not_nullish _ _ _ _ _ h1
                    · exact sendEmail_error_not_nullish _ _ _ _ _ h1
                | ok pair =>
                    exact ⟨aggregate pair.1 pair.2, rfl, aggregate_status _ _,
                      fun e1 h1 => by simp at h1⟩
          · refine ⟨missingEnv, ?_, Or.inr rfl, fun e1 h1 => by simp at h1⟩
            have hg := guard_eq_not_configPresent env
            simp only [Bool.not_eq_true] at hc
            rw [hc] at hg
            simp only [POST, hp, hd, hg]
            simp

/-- Witness of C3 on a request whose body cannot be parsed. -/
theorem POST_never_raises_witness :
    ∃ r : Response, (POST fullEnv badBodyWorld).result = .ok r
      ∧ (r.status = 200 ∨ r.status = 500)
      ∧ (∀ e, badBodyWorld.requestJson = .error e →
          r = { success := false, message := "❌ Server error occurred."
                status := 500 }) :=
  POST_never_raises fullEnv badBodyWorld (fun e h => by
    simp [badBodyWorld, happyWorld] at h
    subst h
    rfl)

/-- A field that an object does not have reads as `undefined`. -/
theorem lookupField_absent (key : String) (fields : List (String × JSValue))
    (h : hasField key fields = false) : lookupField key fields = .undefined := by
  induction fields with
  | nil => rfl
  | cons p rest ih =>
      obtain ⟨k, v⟩ := p
      simp only [hasField, Bool.or_eq_false_iff] at h
      simp [lookupField, h.1, ih h.2]

/-- C6, as stated, fails: on a response whose body has no `ok` field
`sendTelegramMessage` returns `undefined`, not the boolean `false`; and when
`axios.post` rejects with `undefined` the catch block itself throws, so that
`sendTelegramMessage` rejects with a `TypeError`. -/
theorem sendTelegramMessage_not_always_boolean :
    (sendTelegramMessage emptyDataWorld (some "123:abc") (some "42") "hi").result
        = .ok .undefined
      ∧ (sendTelegramMessage emptyDataWorld (some "123:abc") (some "42") "hi").result
        ≠ .ok (.bool false)
      ∧ (sendTelegramMessage chatThrowsUndefinedWorld (some "123:abc") (some "42")
          "hi").result
        = .error (typeError "Cannot read properties of undefined") := by
  refine ⟨rfl, ?_, rfl⟩
  intro h
  have h2 : (sendTelegramMessage emptyDataWorld (some "123:abc") (some "42")
      "hi").result = .ok .undefined := rfl
  rw [h2] at h
  cases h

/-- C6 amended: `sendTelegramMessage` returns the value of `res.data.ok`
unchanged when the call resolves (`true` when the body acknowledges, `false`
when `ok` is `false`, the falsy value `undefined` when the body is an object
without `ok`); it returns the boolean `false` when reading `res.data.ok`
throws (response or data missing) and when `axios.post` throws a value other
than `null` and `undefined`; it rejects only when `axios.post` throws `null`
or `undefined`. -/
theorem sendTelegramMessage_result (w : World) (token chat_id : Option String)
    (message : String) :
    (∀ res data v,
        w.axiosPost ("https://api.telegram.org/bot" ++ envText token ++ "/sendMessage")
          { chat_id := chat_id, text := message, parse_mode := "Markdown" } = .ok res →
        getProp res "data" = .ok data → getProp data "ok" = .ok v →
        (sendTelegramMessage w token chat_id message).result = .ok v)
      ∧ (∀ res fields,
        w.axiosPost ("https://api.telegram.org/bot" ++ envText token ++ "/sendMessage")
          { chat_id := chat_id, text := message, parse_mode := "Markdown" } = .ok res →
        getProp res "data" = .ok (.obj fields) → hasField "ok" fields = false →
        (sendTelegramMessage w token chat_id message).result = .ok .undefined)
      ∧ (∀ res,
        w.axiosPost ("https://api.telegram.org/bot" ++ envText token ++ "/sendMessage")
          { chat_id := chat_id, text := message, parse_mode := "Markdown" } = .ok res →
        (isNullish res = true ∨ getProp res "data" = .ok .undefined
          ∨ getProp res "data" = .ok .null) →
        (sendTelegramMessage w token chat_id message).result = .ok (.bool false))
      ∧ (∀ e,
        w.axiosPost ("https://api.telegram.org/bot" ++ envText token ++ "/sendMessage")
          { chat_id := chat_id, text := message, parse_mode := "Markdown" } = .error e →
        isNullish e = false →
        (sendTelegramMessage w token chat_id message).result = .ok (.bool false))
      ∧ (∀ e, (sendTelegramMessage w token chat_id message).result = .error e →
        ∃ thrown,
          w.axiosPost ("https://api.telegram.org/bot" ++ envText token ++ "/sendMessage")
            { chat_id := chat_id, text := message, parse_mode := "Markdown" }
              = .error thrown
          ∧ isNullish thrown = true) := by
  refine ⟨?_, ?_, ?_, ?_, ?_⟩
  · intro res data v h1 h2 h3
    simp [sendTelegramMessage, h1, h2, h3]
  · intro res fields h1 h2 h3
    simp only [sendTelegramMessage, h1, h2]
    simp [getProp, lookupField_absent _ _ h3]
  · intro res h1 h2
    rcases h2 with h2 | h2 | h2
    · cases res <;> simp [isNullish] at h2 <;>
        simp [sendTelegramMessage, h1, getProp, telegramLogArg, typeError,
          lookupField, getPropOpt, truthy]
    · simp only [sendTelegramMessage, h1, h2]
      simp [getProp, telegramLogArg, typeError, lookupField, getPropOpt, truthy]
    · simp only [sendTelegramMessage, h1, h2]
      simp [getProp, telegramLogArg, typeError, lookupField, getPropOpt, truthy]
  · intro e h1 h2
    obtain ⟨x, hx⟩ := telegramLogArg_ok_of_not_nullish e h2
    simp [sendTelegramMessage, h1, hx]
  · intro e h
    cases h1 : w.axiosPost
        ("https://api.telegram.org/bot" ++ envText token ++ "/sendMessage")
        { chat_id := chat_id, text := message, parse_mode := "Markdown" } with
    | error thrown =>
        refine ⟨thrown, rfl, ?_⟩
        cases hn : isNullish thrown with
        | true => rfl
        | false =>
            obtain ⟨x, hx⟩ := telegramLogArg_ok_of_not_nullish thrown hn
            simp [sendTelegramMessage, h1, hx] at h
    | ok res =>
        exfalso
        cases h2 : getProp res "data" with
        | error e2 =>
            obtain ⟨x, hx⟩ := telegramLogArg_ok_of_not_nullish e2
              (getProp_error_not_nullish _ _ _ h2)
            simp [sendTelegramMessage, h1, h2, hx] at h
        | ok data =>
            cases h3 : getProp data "ok" with
            | error e3 =>
                obtain ⟨x, hx⟩ := telegramLogArg_ok_of_not_nullish e3
                  (getProp_error_not_nullish _ _ _ h3)
                simp [sendTelegramMessage, h1, h2, h3, hx] at h
            | ok v => simp [sendTelegramMessage, h1, h2, h3] at h

/-- Witness of the amended C6: an acknowledging response gives `true`, and an
`Error` thrown by `axios.post` gives the boolean `false`. -/
theorem sendTelegramMessage_result_witness :
    (sendTelegramMessage happyWorld (some "123:abc") (some "42") "hi").result
        = .ok (.bool true)
      ∧ (sendTelegramMessage chatFailsWorld (some "123:abc") (some "42") "hi").result
        = .ok (.bool false) :=
  ⟨(sendTelegramMessage_result happyWorld (some "123:abc") (some "42") "hi").1
      ackResponse (.obj [("ok", .bool true)]) (.bool true) rfl rfl rfl,
   (sendTelegramMessage_result chatFailsWorld (some "123:abc") (some "42") "hi").2.2.2.1
      someError rfl rfl⟩

/-- Once the notification body is formatted, `mailOptions` is built as well:
the same three values are converted to text again. -/
theorem mailOptionsOf_ok (env : Env) (payload name email userMessage : JSValue)
    (fm message : String)
    (hd : destructure payload = .ok (name, email, userMessage))
    (hf : formatMessage name email userMessage = .ok fm) :
    ∃ options, mailOptionsOf env payload message = .ok options
      ∧ options.text = message := by
  unfold formatMessage at hf
  cases h1 : toStringJS name with
  | error e => simp [h1] at hf
  | ok n =>
    cases h2 : toStringJS email with
    | error e => simp [h1, h2] at hf
    | ok m =>
      cases h3 : toStringJS userMessage with
      | error e => simp [h1, h2, h3] at hf
      | ok u =>
        simp only [mailOptionsOf, hd, h1, generateEmailTemplate, h2, h3]
        exact ⟨_, rfl, rfl⟩

/-- The outbound calls of `POST` once the notification body is formatted: the
chat call, then the calls of `sendEmail`, whatever the two outcomes. -/
theorem POST_calls (env : Env) (w : World)
    (payload name email userMessage : JSValue) (fm : String)
    (hc : configPresent env = true) (hp : w.requestJson = .ok payload)
    (hd : destructure payload = .ok (name, email, userMessage))
    (hf : formatMessage name email userMessage = .ok fm) :
    (POST env w).calls
      = Call.telegram
          ("https://api.telegram.org/bot" ++ envText env.TELEGRAM_BOT_TOKEN
            ++ "/sendMessage")
          { chat_id := env.TELEGRAM_CHAT_ID, text := fm, parse_mode := "Markdown" }
        :: (sendEmail env w payload fm).calls := by
  rw [POST_dispatch env w payload name email userMessage fm hc hp hd hf]
  split <;> simp [catchPOST, sendTelegramMessage]

/-- C4: with configuration present and a parsed payload, if `POST` makes the
mail call and `transporter.sendMail` throws on it an error value (never `null`
or `undefined` for the mail library), and the chat call that `POST` makes is
acknowledged (`res.data.ok` is `true`), then `POST` answers `success = false`,
status 500 with the email-failure message, which differs from the both-failed
message. -/
theorem POST_mail_failure (env : Env) (w : World) (payload : JSValue)
    (options : MailOptions) (e : JSValue) (url : String) (body : ChatBody)
    (res data : JSValue)
    (hc : configPresent env = true) (hp : w.requestJson = .ok payload)
    (hmailcall : Call.mail options ∈ (POST env w).calls)
    (hthrow : w.sendMail options = .error e) (hne : isNullish e = false)
    (hchatcall : Call.telegram url body ∈ (POST env w).calls)
    (hchat : w.axiosPost url body = .ok res)
    (hdata : getProp res "data" = .ok data)
    (hok : getProp data "ok" = .ok (.bool true)) :
    (POST env w).result
        = .ok { success := false
                message := "⚠️ Telegram sent, but failed to send Email."
                status := 500 }
      ∧ "⚠️ Telegram sent, but failed to send Email."
        ≠ "❌ Both Telegram and Email failed." := by
  refine ⟨?_, by decide⟩
  have hg := guard_eq_not_configPresent env
  rw [hc] at hg
  cases hd : destructure payload with
  | error e1 =>
      have h0 : (POST env w).calls = [] := by simp [POST, hp, hd, catchPOST]
      rw [h0] at hmailcall
      simp at hmailcall
  | ok fields =>
      obtain ⟨name, email, userMessage⟩ := fields
      cases hf : formatMessage name email userMessage with
      | error e1 =>
          have h0 : (POST env w).calls = [] := by
            simp only [POST, hp, hd, hg, hf]
            simp [catchPOST]
          rw [h0] at hmailcall
          simp at hmailcall
      | ok fm =>
          have hcalls := POST_calls env w payload name email userMessage fm hc hp hd hf
          cases ho : mailOptionsOf env payload fm with
          | error e1 =>
              have h0 : (sendEmail env w payload fm).calls = [] := by
                simp [sendEmail, ho]
              rw [hcalls, h0] at hmailcall
              simp at hmailcall
          | ok made =>
              have h0 : (sendEmail env w payload fm).calls = [Call.mail made] := by
                simp [sendEmail, ho]
              rw [hcalls, h0] at hmailcall hchatcall
              simp at hmailcall hchatcall
              obtain ⟨hurl, hbody⟩ := hchatcall
              subst hmailcall hurl hbody
              obtain ⟨x, hx⟩ := getProp_ok_of_not_nullish e "message" hne
              have ht : (sendTelegramMessage w env.TELEGRAM_BOT_TOKEN
                  env.TELEGRAM_CHAT_ID fm).result = .ok (.bool true) := by
                simp [sendTelegramMessage, hchat, hdata, hok]
              have hm : (sendEmail env w payload fm).result = .ok (.bool false) := by
                simp [sendEmail, ho, hthrow, hx]
              rw [POST_dispatch env w payload name email userMessage fm hc hp hd hf,
                ht, hm]
              simp [promiseAll, aggregate, truthy]

/-- Witness of C4 on Alice's request with `sendMail` throwing an `Error`. -/
theorem POST_mail_failure_witness :
    (POST fullEnv mailFailsWorld).result
        = .ok { success := false
                message := "⚠️ Telegram sent, but failed to send Email."
                status := 500 }
      ∧ "⚠️ Telegram sent, but failed to send Email."
        ≠ "❌ Both Telegram and Email failed." :=
  POST_mail_failure fullEnv mailFailsWorld alicePayload _ someError _ _
    ackResponse (.obj [("ok", .bool true)]) rfl rfl
    (List.Mem.tail _ (List.Mem.head _)) rfl rfl (List.Mem.head _) rfl rfl rfl

/-- C5: for every payload whose `name`, `email` and `message` are strings,
with configuration present and both transports succeeding, `POST` answers
`success = true` with status 200; it makes one chat call and one mail call,
the `text` of the chat call body is the formatted notification body, it is
also the `text` of the mail, and it contains `name` and `message`. -/
theorem POST_success_end_to_end (env : Env) (w : World) (payload : JSValue)
    (n e m : String)
    (hc : configPresent env = true) (hp : w.requestJson = .ok payload)
    (hn : getProp payload "name" = .ok (.str n))
    (he : getProp payload "email" = .ok (.str e))
    (hm : getProp payload "message" = .ok (.str m))
    (hchat : ∀ url body, ∃ res data, w.axiosPost url body = .ok res
      ∧ getProp res "data" = .ok data ∧ getProp data "ok" = .ok (.bool true))
    (hmail : ∀ options, w.sendMail options = .ok ()) :
    ∃ (url text : String) (options : MailOptions),
      (POST env w).result
          = .ok { success := true
                  message := "✅ Message and email sent successfully!"
                  status := 200 }
        ∧ (POST env w).calls
          = [Call.telegram url
              { chat_id := env.TELEGRAM_CHAT_ID, text := text, parse_mode := "Markdown" },
             Call.mail options]
        ∧ options.text = text
        ∧ text = "📬 *New message from " ++ n ++ "*\n\n📧 Email: " ++ e
            ++ "\n📝 Message:\n" ++ m
        ∧ n.toList <:+: text.toList
        ∧ m.toList <:+: text.toList := by
  have hd : destructure payload = .ok (.str n, .str e, .str m) := by
    simp [destructure, hn, he, hm]
  have hf : formatMessage (.str n) (.str e) (.str m)
      = .ok ("📬 *New message from " ++ n ++ "*\n\n📧 Email: " ++ e
            ++ "\n📝 Message:\n" ++ m) := by
    simp [formatMessage, toStringJS]
  obtain ⟨options, ho, hot⟩ := mailOptionsOf_ok env payload _ _ _ _
    ("📬 *New message from " ++ n ++ "*\n\n📧 Email: " ++ e
            ++ "\n📝 Message:\n" ++ m) hd hf
  obtain ⟨res, data, h1, h2, h3⟩ := hchat
    ("https://api.telegram.org/bot" ++ envText env.TELEGRAM_BOT_TOKEN ++ "/sendMessage")
    { chat_id := env.TELEGRAM_CHAT_ID
      text := "📬 *New message from " ++ n ++ "*\n\n📧 Email: " ++ e
            ++ "\n📝 Message:\n" ++ m
      parse_mode := "Markdown" }
  refine ⟨"https://api.telegram.org/bot" ++ envText env.TELEGRAM_BOT_TOKEN
      ++ "/sendMessage", _, options, ?_, ?_, hot, rfl, ?_, ?_⟩
  · have ht : (sendTelegramMessage w env.TELEGRAM_BOT_TOKEN env.TELEGRAM_CHAT_ID
        ("📬 *New message from " ++ n ++ "*\n\n📧 Email: " ++ e
            ++ "\n📝 Message:\n" ++ m)).result = .ok (.bool true) := by
      simp only [sendTelegramMessage, h1, h2, h3]
    have hs : (sendEmail env w payload
        ("📬 *New message from " ++ n ++ "*\n\n📧 Email: " ++ e
            ++ "\n📝 Message:\n" ++ m)).result = .ok (.bool true) := by
      simp [sendEmail, ho, hmail]
    rw [POST_dispatch env w payload _ _ _ _ hc hp hd hf, ht, hs]
    simp [promiseAll, aggregate, truthy]
  · have ht : (sendTelegramMessage w env.TELEGRAM_BOT_TOKEN env.TELEGRAM_CHAT_ID
        ("📬 *New message from " ++ n ++ "*\n\n📧 Email: " ++ e
            ++ "\n📝 Message:\n" ++ m)).result = .ok (.bool true) := by
      simp only [sendTelegramMessage, h1, h2, h3]
    have hs : (sendEmail env w payload
        ("📬 *New message from " ++ n ++ "*\n\n📧 Email: " ++ e
            ++ "\n📝 Message:\n" ++ m)).result = .ok (.bool true) := by
      simp [sendEmail, ho, hmail]
    rw [POST_dispatch env w payload _ _ _ _ hc hp hd hf, ht, hs]
    simp [promiseAll, sendTelegramMessage, sendEmail, ho]
  · refine ⟨("📬 *New message from ").toList,
      ("*\n\n📧 Email: " ++ e ++ "\n📝 Message:\n" ++ m).toList, ?_⟩
    simp [String.append_assoc]
  · refine ⟨("📬 *New message from " ++ n ++ "*\n\n📧 Email: " ++ e
        ++ "\n📝 Message:\n").toList, [], ?_⟩
    simp

/-- Witness of C5 on the payload of Alice with both transports succeeding. -/
theorem POST_success_end_to_end_witness :
    ∃ (url text : String) (options : MailOptions),
      (POST fullEnv happyWorld).result
          = .ok { success := true
                  message := "✅ Message and email sent successfully!"
                  status := 200 }
        ∧ (POST fullEnv happyWorld).calls
          = [Call.telegram url
              { chat_id := fullEnv.TELEGRAM_CHAT_ID, text := text
                parse_mode := "Markdown" },
             Call.mail options]
        ∧ options.text = text
        ∧ text = "📬 *New message from " ++ "Alice" ++ "*\n\n📧 Email: "
            ++ "alice@example.com" ++ "\n📝 Message:\n" ++ "Hello"
        ∧ "Alice".toList <:+: text.toList
        ∧ "Hello".toList <:+: text.toList :=
  POST_success_end_to_end fullEnv happyWorld alicePayload
    "Alice" "alice@example.com" "Hello" rfl rfl rfl rfl rfl
    (fun _ _ => ⟨ackResponse, .obj [("ok", .bool true)], rfl, rfl, rfl⟩)
    (fun _ => rfl)

/-! ## Properties of the form submitter -/

/-- C7: when at least one of name, email, message is the empty string,
`handleSendMail` issues no HTTP request and leaves the required-fields flag
set, so that `All fields are required!` is rendered. -/
theorem handleSendMail_blocks_on_empty_field
    (server : UserInput → Except JSValue JSValue) (s : FormState)
    (h : s.userInput.name = "" ∨ s.userInput.email = "" ∨ s.userInput.message = "") :
    requests (handleSendMail server s) = []
      ∧ (applyEffects s (handleSendMail server s)).error.required = true
      ∧ showsRequiredError (applyEffects s (handleSendMail server s)) = true := by
  have hc : (!strTruthy s.userInput.email || !strTruthy s.userInput.message
      || !strTruthy s.userInput.name) = true := by
    rcases h with h | h | h <;> simp [strTruthy, h]
  simp [handleSendMail, hc, requests, applyEffects, applyEffect, showsRequiredError]

/-- Witness of C7 on the form `name = ""`, `email = "a@b.com"`,
`message = "hi"`. -/
theorem handleSendMail_blocks_on_empty_field_witness :
    requests (handleSendMail (fun _ => .ok .undefined)
        { initialState with
          userInput := { name := "", email := "a@b.com", message := "hi" } }) = []
      ∧ (applyEffects
          { initialState with
            userInput := { name := "", email := "a@b.com", message := "hi" } }
          (handleSendMail (fun _ => .ok .undefined)
            { initialState with
              userInput := { name := "", email := "a@b.com", message := "hi" } })
        ).error.required = true
      ∧ showsRequiredError (applyEffects
          { initialState with
            userInput := { name := "", email := "a@b.com", message := "hi" } }
          (handleSendMail (fun _ => .ok .undefined)
            { initialState with
              userInput := { name := "", email := "a@b.com", message := "hi" } }))
        = true :=
  handleSendMail_blocks_on_empty_field (fun _ => .ok .undefined)
    { initialState with
      userInput := { name := "", email := "a@b.com", message := "hi" } }
    (Or.inl rfl)

/-- C8, as stated, fails: with all three fields filled, an email that the
format check rejects and the stored email flag still `false` (no blur has
recorded the rejection), `handleSendMail` posts the form. -/
theorem handleSendMail_posts_unchecked_email :
    ¬ ∀ (isValidEmail : String → Bool)
        (server : UserInput → Except JSValue JSValue) (s : FormState),
        isValidEmail s.userInput.email = false →
          requests (handleSendMail server s) = [] := by
  intro h
  have h1 := h (fun _ => false) (fun _ => .ok .undefined)
    { initialState with
      userInput := { name := "Alice", email := "not-an-email", message := "hi" } }
    rfl
  simp [handleSendMail, initialState, strTruthy, requests] at h1

/-- C8 amended: `handleSendMail` issues no HTTP request whenever the stored
flag `error.email` is set; and after a blur of the email field whose text the
format check rejects the flag is set, so a submission from that state is
blocked whatever the other fields hold. -/
theorem handleSendMail_blocks_on_email_flag (isValidEmail : String → Bool)
    (server : UserInput → Except JSValue JSValue) (s : FormState) :
    (s.error.email = true → requests (handleSendMail server s) = [])
      ∧ (isValidEmail s.userInput.email = false →
          (applyEffects s (emailOnBlur isValidEmail s)).error.email = true
            ∧ requests (handleSendMail server
                (applyEffects s (emailOnBlur isValidEmail s))) = []) := by
  have key : ∀ t : FormState, t.error.email = true →
      requests (handleSendMail server t) = [] := by
    intro t ht
    unfold handleSendMail
    split_ifs <;> simp_all [requests]
  refine ⟨key s, fun hv => ?_⟩
  have hflag : (applyEffects s (emailOnBlur isValidEmail s)).error.email = true := by
    unfold emailOnBlur checkRequired
    split_ifs <;> simp [applyEffects, applyEffect, hv]
  exact ⟨hflag, key _ hflag⟩

/-- Witness of the amended C8 on a filled form whose email is `not-an-email`,
once with the flag set and once after a blur with a check that rejects it. -/
theorem handleSendMail_blocks_on_email_flag_witness :
    requests (handleSendMail (fun _ => .ok .undefined)
        { error := { email := true, required := false }
          isLoading := false
          userInput := { name := "Alice", email := "not-an-email", message := "hi" } })
      = []
    ∧ requests (handleSendMail (fun _ => .ok .undefined)
        (applyEffects
          { initialState with
            userInput := { name := "Alice", email := "not-an-email", message := "hi" } }
          (emailOnBlur (fun t => t.toList.elem '@')
            { initialState with
              userInput :=
                { name := "Alice", email := "not-an-email", message := "hi" } })))
      = [] :=
  ⟨(handleSendMail_blocks_on_email_flag (fun _ => false) (fun _ => .ok .undefined)
      { error := { email := true, required := false }
        isLoading := false
        userInput := { name := "Alice", email := "not-an-email", message := "hi" } }).1
      rfl,
   ((handleSendMail_blocks_on_email_flag (fun t => t.toList.elem '@')
      (fun _ => .ok .undefined)
      { initialState with
        userInput := { name := "Alice", email := "not-an-email", message := "hi" } }).2
      (by decide)).2⟩

/-- C10: the blur handler of the email field leaves the error state at
`required` unchanged and `email` set to the negated format check, for every
form state; a showing required-fields error stays, also when all three fields
are filled. -/
theorem emailOnBlur_error_state (isValidEmail : String → Bool) (s : FormState) :
    (applyEffects s (emailOnBlur isValidEmail s)).error
        = { required := s.error.required
            email := !isValidEmail s.userInput.email }
      ∧ showsRequiredError (applyEffects s (emailOnBlur isValidEmail s))
          = showsRequiredError s := by
  unfold emailOnBlur checkRequired
  split_ifs <;> simp [applyEffects, applyEffect, showsRequiredError]

end Contact
